import Mathlib

/-!
Verification of the native-side control layer of the Monight PDF viewer
(src-tauri/src/commands.rs, menu.rs, lib.rs).

The Rust code is shallowly embedded: `std::path::Path` operations
(`file_name`, `parent`, `extension`) are modelled on Unix path strings
following the `std::path` component semantics; filesystem state
(`exists`, `canonicalize`, `fs::read`) is an explicit oracle structure
`FS`; the windowing toolkit is an explicit `WinState` with oracles for
the toolkit calls that may fail.  Commands return `Except String`,
mirroring `Result<_, String>` in the source.
-/

namespace Monight

/-! ### Unix path model (std::path semantics) -/

/-- A parsed path component, as in `std::path::Component` (Unix, no prefix). -/
inductive Component where
  | rootDir
  | curDir
  | parentDir
  | normal (s : String)
deriving DecidableEq, Repr

/-- Split a character list on `/`, keeping empty segments (like `str::split`). -/
def segsAux : List Char → List Char → List String
  | [], acc => [String.mk acc.reverse]
  | c :: rest, acc =>
      if c = '/' then String.mk acc.reverse :: segsAux rest []
      else segsAux rest (c :: acc)

/-- All `/`-separated segments of a path string. -/
def pathSegs (p : String) : List String := segsAux p.toList []

/-- The component list of a path, following `Path::components` on Unix:
repeated separators and non-leading `.` segments are dropped; a leading `/`
yields `RootDir`; a leading `.` (alone or before a separator) yields `CurDir`. -/
def pathComponents (p : String) : List Component :=
  let segs := ((pathSegs p).filter (fun s => ¬(s = "" ∨ s = "."))).map
      (fun s => if s = ".." then Component.parentDir else Component.normal s)
  match p.toList with
  | '/' :: _ => Component.rootDir :: segs
  | ['.'] => Component.curDir :: segs
  | '.' :: '/' :: _ => Component.curDir :: segs
  | _ => segs

/-- Render one component back to text, as `Path` display does. -/
def compStr : Component → String
  | Component.rootDir => "/"
  | Component.curDir => "."
  | Component.parentDir => ".."
  | Component.normal s => s

/-- Reassemble a component list into a path string (`Components::as_path`). -/
def compsToString : List Component → String
  | Component.rootDir :: rest => "/" ++ String.intercalate "/" (rest.map compStr)
  | l => String.intercalate "/" (l.map compStr)

/-- `Path::file_name`: the last component when it is a normal component,
`none` otherwise (root, empty path, or a path ending in `..`). -/
def fileNameOf (p : String) : Option String :=
  match (pathComponents p).getLast? with
  | some (Component.normal s) => some s
  | _ => none

/-- `Path::parent`: the path without its final component, `none` when the
path is empty or consists only of a root. -/
def parentOf (p : String) : Option String :=
  let comps := pathComponents p
  match comps.getLast? with
  | some (Component.normal _) => some (compsToString comps.dropLast)
  | some Component.curDir => some (compsToString comps.dropLast)
  | some Component.parentDir => some (compsToString comps.dropLast)
  | _ => none

/-- Split a file name at its final dot: `some` of the part after the final
dot, unless there is no dot or the only dot starts the name
(`Path::extension` on the file name). -/
def extSplit (n : String) : Option String :=
  match dotSplitAux n.toList.reverse with
  | some (sufRev, beforeRev) =>
      if beforeRev.isEmpty then none else some (String.mk sufRev.reverse)
  | none => none
where
  dotSplitAux : List Char → Option (List Char × List Char)
    | [] => none
    | c :: rest =>
        if c = '.' then some ([], rest)
        else (dotSplitAux rest).map (fun pr => (c :: pr.1, pr.2))

/-- `Path::extension`: the extension of the file name, if any. -/
def pathExtension (p : String) : Option String := (fileNameOf p).bind extSplit

/-! ### Filesystem oracle -/

/-- The ambient filesystem, as the Rust code observes it:
`pathExists` is `Path::exists`, `canonicalize` is `fs::canonicalize`
(`none` on failure), `readFile` is `fs::read` (`Except.error` carries the
io error rendered by `to_string`). -/
structure FS where
  pathExists : String → Bool
  canonicalize : String → Option String
  readFile : String → Except String (List Nat)

/-! ### commands.rs -/

/-- The allow-list test on one extension string (`commands.rs` line 15). -/
def allowedExt (e : String) : Bool :=
  e = "pdf" || e = "xdp" || e = "fdf" || e = "xfdf"

/-- Whether a path's extension exists and is allow-listed, mirroring the
`match file_path.extension().and_then(|e| e.to_str())` arms. -/
def extAllowed (p : String) : Bool :=
  match pathExtension p with
  | some e => allowedExt e
  | none => false

/-- The fixed unsupported-type error text of `read_pdf_file`. -/
def invalidTypeMsg : String :=
  "Invalid file type. Only PDF, XDP, FDF, and XFDF files are supported."

/-- `read_pdf_file` (commands.rs lines 6-21): existence check first, then the
extension allow-list, then `fs::read`. -/
def read_pdf_file (fs : FS) (path : String) : Except String (List Nat) :=
  if ¬ fs.pathExists path then Except.error ("File not found: " ++ path)
  else if extAllowed path then
    match fs.readFile path with
    | Except.ok bytes => Except.ok bytes
    | Except.error e => Except.error ("Failed to read file: " ++ e)
  else Except.error invalidTypeMsg

/-- `get_file_name` (commands.rs lines 25-31). -/
def get_file_name (path : String) : String :=
  (fileNameOf path).getD "Unknown"

/-- `get_file_directory` (commands.rs lines 35-41). -/
def get_file_directory (path : String) : String :=
  (parentOf path).getD ""

/-! ### Window state and open_settings (commands.rs lines 45-74) -/

/-- The window-system state the commands observe: which of the two labelled
windows exist, plus oracles for the two toolkit calls that can fail
(`set_focus` on the settings window, and the settings window build),
each `some e` when the toolkit call would fail with message `e`. -/
structure WinState where
  hasMain : Bool
  hasSettings : Bool
  focusErr : Option String
  buildErr : Option String
deriving DecidableEq, Repr

/-- One observable side effect of menu dispatch or window management. -/
inductive Effect where
  | emitTo (window event : String)
  | shellOpen (url : String)
  | focusSettings
  | createSettings
  | logError (msg : String)
deriving DecidableEq, Repr

/-- `open_settings` (commands.rs lines 45-74): focus the existing settings
window if there is one; otherwise require the main window and build a new
settings window parented to it.  Returns the new window state and the
effects performed, or the error string the Rust function would return. -/
def open_settings (st : WinState) : Except String (WinState × List Effect) :=
  if st.hasSettings then
    match st.focusErr with
    | some e => Except.error e
    | none => Except.ok (st, [Effect.focusSettings])
  else if st.hasMain then
    match st.buildErr with
    | some e => Except.error e
    | none => Except.ok ({ st with hasSettings := true }, [Effect.createSettings])
  else Except.error "Main window not found"

/-! ### menu.rs: menu construction -/

/-- The two platform classes distinguished by `cfg(target_os = "macos")`. -/
inductive Platform where
  | macos
  | other
deriving DecidableEq, Repr

/-- The predefined (toolkit-supplied) menu items used by `create_menu`. -/
inductive PredefKind where
  | separator
  | closeWindow
  | undo
  | redo
  | cut
  | copy
  | paste
  | selectAll
  | minimize
  | maximize
deriving DecidableEq, Repr

/-- A node of the built menu: an identified action (`MenuItem::with_id`),
a predefined item, or a submenu owning its children. -/
inductive MenuNode where
  | action (id label : String) (enabled : Bool) (shortcut : Option String)
  | predefined (kind : PredefKind) (label : Option String)
  | submenu (label : String) (enabled : Bool) (items : List MenuNode)

/-- `create_menu` (menu.rs lines 10-183), both `cfg` branches translated in
full.  The result is the ordered list of top-level submenus. -/
def create_menu (p : Platform) : List MenuNode :=
  match p with
  | Platform.macos =>
      [ MenuNode.submenu "File" true
          [ MenuNode.action "open" "Open..." true (some "CmdOrCtrl+O"),
            MenuNode.action "print" "Print" true (some "CmdOrCtrl+P"),
            MenuNode.predefined PredefKind.separator none,
            MenuNode.action "settings" "Settings..." true (some "Cmd+,"),
            MenuNode.predefined PredefKind.separator none,
            MenuNode.predefined PredefKind.closeWindow (some "Close") ],
        MenuNode.submenu "Edit" true
          [ MenuNode.predefined PredefKind.undo none,
            MenuNode.predefined PredefKind.redo none,
            MenuNode.predefined PredefKind.separator none,
            MenuNode.predefined PredefKind.cut none,
            MenuNode.predefined PredefKind.copy none,
            MenuNode.predefined PredefKind.paste none,
            MenuNode.predefined PredefKind.selectAll none ],
        MenuNode.submenu "View" true
          [ MenuNode.action "zoom_in" "Zoom In" true (some "CmdOrCtrl+Plus"),
            MenuNode.action "zoom_out" "Zoom Out" true (some "CmdOrCtrl+-"),
            MenuNode.action "reset_zoom" "Reset Zoom" true (some "CmdOrCtrl+0"),
            MenuNode.predefined PredefKind.separator none,
            MenuNode.action "toggle_fullscreen" "Toggle Fullscreen" true (some "F11") ],
        MenuNode.submenu "Window" true
          [ MenuNode.action "close_tab" "Close Tab" true (some "CmdOrCtrl+W"),
            MenuNode.predefined PredefKind.separator none,
            MenuNode.predefined PredefKind.minimize none,
            MenuNode.predefined PredefKind.maximize none ],
        MenuNode.submenu "Help" true
          [ MenuNode.action "learn_more" "Learn More" true none,
            MenuNode.action "license" "License" true none,
            MenuNode.action "bugs" "Report Bug" true none,
            MenuNode.action "contact" "Contact" true none ] ]
  | Platform.other =>
      [ MenuNode.submenu "File" true
          [ MenuNode.action "open" "Open..." true (some "CmdOrCtrl+O"),
            MenuNode.action "print" "Print" true (some "CmdOrCtrl+P"),
            MenuNode.predefined PredefKind.separator none,
            MenuNode.action "settings" "Settings" true (some "Alt+S"),
            MenuNode.predefined PredefKind.separator none,
            MenuNode.predefined PredefKind.closeWindow (some "Close") ],
        MenuNode.submenu "Edit" true
          [ MenuNode.predefined PredefKind.undo none,
            MenuNode.predefined PredefKind.redo none,
            MenuNode.predefined PredefKind.separator none,
            MenuNode.predefined PredefKind.cut none,
            MenuNode.predefined PredefKind.copy none,
            MenuNode.predefined PredefKind.paste none,
            MenuNode.predefined PredefKind.selectAll none ],
        MenuNode.submenu "View" true
          [ MenuNode.action "zoom_in" "Zoom In" true (some "CmdOrCtrl+Plus"),
            MenuNode.action "zoom_out" "Zoom Out" true (some "CmdOrCtrl+-"),
            MenuNode.action "reset_zoom" "Reset Zoom" true (some "CmdOrCtrl+0"),
            MenuNode.predefined PredefKind.separator none,
            MenuNode.action "toggle_fullscreen" "Toggle Fullscreen" true (some "F11") ],
        MenuNode.submenu "Window" true
          [ MenuNode.action "close_tab" "Close Tab" true (some "CmdOrCtrl+W"),
            MenuNode.predefined PredefKind.separator none,
            MenuNode.predefined PredefKind.minimize none,
            MenuNode.predefined PredefKind.maximize none ],
        MenuNode.submenu "Help" true
          [ MenuNode.action "learn_more" "Learn More" true none,
            MenuNode.action "license" "License" true none,
            MenuNode.action "bugs" "Report Bug" true none,
            MenuNode.action "contact" "Contact" true none ] ]

mutual

/-- The action identifiers carried by one menu node, in order. -/
def nodeIds : MenuNode → List String
  | MenuNode.action id _ _ _ => [id]
  | MenuNode.predefined _ _ => []
  | MenuNode.submenu _ _ items => nodesIds items

/-- The action identifiers carried by a list of menu nodes, in order. -/
def nodesIds : List MenuNode → List String
  | [] => []
  | n :: rest => nodeIds n ++ nodesIds rest

end

/-- The items of the first top-level submenu labelled `l`, or `[]`. -/
def submenuItems (l : String) : List MenuNode → List MenuNode
  | [] => []
  | MenuNode.submenu l' _ items :: rest =>
      if l' = l then items else submenuItems l rest
  | _ :: rest => submenuItems l rest

/-- The labels of the top-level submenus, in order. -/
def topLabels : List MenuNode → List String
  | [] => []
  | MenuNode.submenu l _ _ :: rest => l :: topLabels rest
  | _ :: rest => topLabels rest

mutual

/-- Whether a node is, or contains, one of the application-identity
predefined items (about / services / hide / quit).  `create_menu` builds
none of these, so the `PredefKind` enumeration of this embedding has no
constructor for them and the leaf check is false on every built node; the
definition still scans the whole tree so the statement reads off the built
structure rather than the enumeration. -/
def nodeHasAppIdentity : MenuNode → Bool
  | MenuNode.submenu _ _ items => hasAppIdentityItem items
  | MenuNode.predefined _ _ => false
  | MenuNode.action _ _ _ _ => false

/-- Whether any node of the list contains an application-identity item. -/
def hasAppIdentityItem : List MenuNode → Bool
  | [] => false
  | n :: rest => nodeHasAppIdentity n || hasAppIdentityItem rest

end

/-! ### menu.rs: event routing -/

/-- `handle_menu_event` (menu.rs lines 186-252): the effects dispatching one
menu identifier performs against window state `st`.  Event-emitting arms
emit to the `"main"` window only when it exists; the `"settings"` arm runs
`open_settings` and logs its error, the help arms open fixed URLs, and the
wildcard arm does nothing. -/
def handle_menu_event (st : WinState) (eventId : String) : List Effect :=
  match eventId with
  | "open" =>
      if st.hasMain then [Effect.emitTo "main" "menu-open"] else []
  | "print" =>
      if st.hasMain then [Effect.emitTo "main" "menu-print"] else []
  | "settings" =>
      match open_settings st with
      | Except.ok (_, effs) => effs
      | Except.error e => [Effect.logError ("Error opening settings: " ++ e)]
  | "zoom_in" =>
      if st.hasMain then [Effect.emitTo "main" "menu-zoom-in"] else []
  | "zoom_out" =>
      if st.hasMain then [Effect.emitTo "main" "menu-zoom-out"] else []
  | "reset_zoom" =>
      if st.hasMain then [Effect.emitTo "main" "menu-reset-zoom"] else []
  | "toggle_fullscreen" =>
      if st.hasMain then [Effect.emitTo "main" "menu-toggle-fullscreen"] else []
  | "close_tab" =>
      if st.hasMain then [Effect.emitTo "main" "menu-close-tab"] else []
  | "learn_more" =>
      [Effect.shellOpen "https://github.com/yourusername/yourrepo"]
  | "license" =>
      [Effect.shellOpen "https://github.com/yourusername/yourrepo/blob/master/LICENSE"]
  | "bugs" =>
      [Effect.shellOpen "https://github.com/yourusername/yourrepo/issues"]
  | "contact" =>
      [Effect.shellOpen "mailto:your-email@example.com"]
  | _ => []

/-- The canonical dispatch state used to read off which identifiers the
router has a case for: main window present, no settings window, no toolkit
failures.  Under this state every non-wildcard arm of `handle_menu_event`
produces at least one effect. -/
def probeState : WinState :=
  { hasMain := true, hasSettings := false, focusErr := none, buildErr := none }

/-- An identifier is handled by the router when dispatching it under the
canonical probe state performs at least one effect. -/
def routerHandles (id : String) : Prop :=
  handle_menu_event probeState id ≠ []

/-! ### lib.rs: launch arguments and file association -/

/-- The payload of a `cli-open-files` event (`CliPayload`, lib.rs 27-30). -/
structure CliPayload where
  files : List String
  page : Option Nat
deriving DecidableEq, Repr

/-- The paths surviving validation in the CLI loop (lib.rs lines 82-95):
each argument is canonicalized, a path that fails to canonicalize or whose
canonical form does not exist is dropped. -/
def survivors (fs : FS) (files : List String) : List String :=
  match files with
  | [] => []
  | f :: rest =>
      (match fs.canonicalize f with
       | some c => if fs.pathExists c then [c] else []
       | none => []) ++ survivors fs rest

/-- The launch-argument pipeline (lib.rs lines 80-110): the list of
`(event name, payload)` emissions it performs.  Nothing is emitted when no
argument survives validation; otherwise one `cli-open-files` event carries
all surviving files and the page argument. -/
def resolveLaunch (fs : FS) (files : List String) (page : Option Nat) :
    List (String × CliPayload) :=
  if files.isEmpty then []
  else if (survivors fs files).isEmpty then []
  else [("cli-open-files", { files := survivors fs files, page := page })]

/-- The file-association listener body (lib.rs lines 59-76): canonicalize
the payload, require existence and an allow-listed extension, then emit a
single-file `cli-open-files` event with no page. -/
def fileAssoc (fs : FS) (payload : String) : List (String × CliPayload) :=
  match fs.canonicalize payload with
  | some canonical =>
      if fs.pathExists canonical then
        if extAllowed canonical then
          [("cli-open-files", { files := [canonical], page := none })]
        else []
      else []
  | none => []

/-! ### Concrete oracles used by witnesses and counterexamples -/

/-- A filesystem with no entries at all. -/
def fsEmpty : FS :=
  { pathExists := fun _ => false,
    canonicalize := fun _ => none,
    readFile := fun _ => Except.error "No such file or directory (os error 2)" }

/-- A filesystem holding exactly `/valid.pdf` (already canonical). -/
def fsValidPdf : FS :=
  { pathExists := fun p => p = "/valid.pdf",
    canonicalize := fun p => if p = "/valid.pdf" then some "/valid.pdf" else none,
    readFile := fun p =>
      if p = "/valid.pdf" then Except.ok [37, 80, 68, 70]
      else Except.error "No such file or directory (os error 2)" }

/-- A filesystem holding exactly `/notes.txt`, a file outside the
extension allow-list. -/
def fsNotesTxt : FS :=
  { pathExists := fun p => p = "/notes.txt",
    canonicalize := fun p => if p = "/notes.txt" then some "/notes.txt" else none,
    readFile := fun p =>
      if p = "/notes.txt" then Except.ok [104, 105]
      else Except.error "No such file or directory (os error 2)" }

/-- The window state after `open_settings` succeeds from `probeState`. -/
def probeStateAfter : WinState :=
  { hasMain := true, hasSettings := true, focusErr := none, buildErr := none }

/-! ## Claims -/

/-- C1 counterexample: `/nope.txt` has extension `txt`, outside the
allow-list, yet on a filesystem where it does not exist `read_pdf_file`
returns the not-found error rather than the unsupported-type error — the
existence check precedes the extension check, so the claimed
"UnsupportedType regardless of whether the path exists" is false. -/
theorem c1_counterexample :
    read_pdf_file fsEmpty "/nope.txt" = Except.error ("File not found: /nope.txt") ∧
    "File not found: /nope.txt" ≠ invalidTypeMsg := by
  exact ⟨rfl, by decide⟩

/-- C1 (amended): for every path that exists and whose extension is absent
or outside the allow-list, `read_pdf_file` returns the unsupported-type
error; for every path that does not exist it returns the not-found error
instead, whatever the extension (the existence check runs first). -/
theorem c1_unsupported_type_for_existing_paths :
    (∀ (fs : FS) (p : String), fs.pathExists p = true → extAllowed p = false →
      read_pdf_file fs p = Except.error invalidTypeMsg) ∧
    (∀ (fs : FS) (p : String), fs.pathExists p = false →
      read_pdf_file fs p = Except.error ("File not found: " ++ p)) := by
  constructor
  · intro fs p hex hext
    unfold read_pdf_file
    simp [hex, hext]
  · intro fs p hex
    unfold read_pdf_file
    simp [hex]

/-- C1 witness: the amended statement evaluated at `/notes.txt` on a
filesystem that holds it, and at `/nope.txt` on an empty filesystem. -/
theorem c1_witness :
    read_pdf_file fsNotesTxt "/notes.txt" = Except.error invalidTypeMsg ∧
    read_pdf_file fsEmpty "/nope.txt" = Except.error ("File not found: /nope.txt") := by
  exact ⟨c1_unsupported_type_for_existing_paths.1 fsNotesTxt "/notes.txt" (by decide) (by decide),
    c1_unsupported_type_for_existing_paths.2 fsEmpty "/nope.txt" rfl⟩

/-- C2 counterexample: in the macOS build of the menu the `settings`
action sits inside the File submenu, the top-level submenus are exactly
File/Edit/View/Window/Help, and no application-identity item
(about/services/hide/quit) appears anywhere — contradicting the claim
that on macOS `settings` lives in an application-identity submenu and the
File submenu has no settings entry. -/
theorem c2_counterexample :
    "settings" ∈ nodesIds (submenuItems "File" (create_menu Platform.macos)) ∧
    topLabels (create_menu Platform.macos) = ["File", "Edit", "View", "Window", "Help"] ∧
    hasAppIdentityItem (create_menu Platform.macos) = false := by
  decide

/-- C2 (amended): on both platform classes the `settings` action is
carried by the File submenu (macOS shortcut `Cmd+,`, other platforms
`Alt+S`), it occurs exactly once in the whole tree, no
application-identity submenu is built, and both platform classes carry
the same five top-level submenus including a Window submenu. -/
theorem c2_settings_in_file_menu_on_both_platforms :
    "settings" ∈ nodesIds (submenuItems "File" (create_menu Platform.macos)) ∧
    "settings" ∈ nodesIds (submenuItems "File" (create_menu Platform.other)) ∧
    (nodesIds (create_menu Platform.macos)).count "settings" = 1 ∧
    (nodesIds (create_menu Platform.other)).count "settings" = 1 ∧
    hasAppIdentityItem (create_menu Platform.macos) = false ∧
    hasAppIdentityItem (create_menu Platform.other) = false ∧
    topLabels (create_menu Platform.macos) = ["File", "Edit", "View", "Window", "Help"] ∧
    topLabels (create_menu Platform.other) = ["File", "Edit", "View", "Window", "Help"] := by
  decide

/-- C3: for both platform classes, an identifier is attached to some
interactive node of the built menu exactly when dispatching it performs
an effect, i.e. exactly when the router has a non-default case for it:
the built vocabulary and the routed vocabulary coincide. -/
theorem c3_menu_router_consistency (p : Platform) (id : String) :
    id ∈ nodesIds (create_menu p) ↔ routerHandles id := by
  constructor
  · intro h
    have h12 : id ∈ ["open", "print", "settings", "zoom_in", "zoom_out", "reset_zoom",
        "toggle_fullscreen", "close_tab", "learn_more", "license", "bugs", "contact"] := by
      cases p <;> simpa [create_menu, nodesIds, nodeIds, or_assoc] using h
    fin_cases h12 <;>
      simp [routerHandles, handle_menu_event, probeState, open_settings]
  · intro h
    unfold routerHandles handle_menu_event at h
    cases p <;> (split at h <;> simp_all [create_menu, nodesIds, nodeIds])

/-- C4: `open_settings` focuses the existing settings window and returns
without building when one exists; it fails with the precondition error
when neither a settings nor a main window exists; any successful run
leaves exactly one settings window, never replacing an existing one; and
a second call after any successful call focuses that same window. -/
theorem c4_open_settings_idempotent :
    (∀ st : WinState, st.hasSettings = true → st.focusErr = none →
      open_settings st = Except.ok (st, [Effect.focusSettings])) ∧
    (∀ st : WinState, st.hasSettings = false → st.hasMain = false →
      open_settings st = Except.error "Main window not found") ∧
    (∀ (st st' : WinState) (effs : List Effect),
      open_settings st = Except.ok (st', effs) →
      st'.hasSettings = true ∧
        (st.hasSettings = true → st' = st ∧ effs = [Effect.focusSettings])) ∧
    (∀ (st st' : WinState) (effs : List Effect), st.focusErr = none →
      open_settings st = Except.ok (st', effs) →
      open_settings st' = Except.ok (st', [Effect.focusSettings])) := by
  refine ⟨?_, ?_, ?_, ?_⟩
  · intro st h1 h2
    unfold open_settings
    simp [h1, h2]
  · intro st h1 h2
    unfold open_settings
    simp [h1, h2]
  · intro st st' effs h
    unfold open_settings at h
    by_cases hs : st.hasSettings
    · cases hfe : st.focusErr <;> simp [hs, hfe] at h
      obtain ⟨h1, h2⟩ := h
      subst h1
      exact ⟨hs, fun _ => ⟨rfl, h2.symm⟩⟩
    · by_cases hm : st.hasMain
      · cases hbe : st.buildErr <;> simp [hs, hm, hbe] at h
        obtain ⟨h1, h2⟩ := h
        subst h1
        exact ⟨rfl, fun hc => absurd hc (by simp [hs])⟩
      · simp [hs, hm] at h
  · intro st st' effs hf h
    unfold open_settings at h
    by_cases hs : st.hasSettings
    · rw [hf] at h
      simp [hs] at h
      obtain ⟨h1, _⟩ := h
      subst h1
      unfold open_settings
      simp [hs, hf]
    · by_cases hm : st.hasMain
      · cases hbe : st.buildErr <;> simp [hs, hm, hbe] at h
        obtain ⟨h1, _⟩ := h
        subst h1
        unfold open_settings
        simp [hf]
      · simp [hs, hm] at h

/-- C4 witness: focusing an existing settings window, the precondition
error when no window exists, the single-instance conclusion for the run
that creates the window from the probe state, and the focus-only second
call after it. -/
theorem c4_witness :
    open_settings probeStateAfter = Except.ok (probeStateAfter, [Effect.focusSettings]) ∧
    open_settings { hasMain := false, hasSettings := false, focusErr := none, buildErr := none } =
      Except.error "Main window not found" ∧
    (probeStateAfter.hasSettings = true ∧
      (probeState.hasSettings = true →
        probeStateAfter = probeState ∧ [Effect.createSettings] = [Effect.focusSettings])) ∧
    open_settings probeStateAfter = Except.ok (probeStateAfter, [Effect.focusSettings]) := by
  refine ⟨?_, ?_, ?_, ?_⟩
  · exact c4_open_settings_idempotent.1 probeStateAfter rfl rfl
  · exact c4_open_settings_idempotent.2.1
      { hasMain := false, hasSettings := false, focusErr := none, buildErr := none } rfl rfl
  · exact c4_open_settings_idempotent.2.2.1 probeState probeStateAfter
      [Effect.createSettings] rfl
  · exact c4_open_settings_idempotent.2.2.2 probeState probeStateAfter
      [Effect.createSettings] rfl rfl

/-- C5: on a filesystem where only `/valid.pdf` canonicalizes, launch
arguments `["/valid.pdf", "/missing.pdf"]` with page 5 emit exactly one
`cli-open-files` event carrying `["/valid.pdf"]` and page 5 — the bad
path is dropped, not fatal; and whenever no argument survives
validation, nothing at all is emitted. -/
theorem c5_resolver_drops_invalid_paths :
    resolveLaunch fsValidPdf ["/valid.pdf", "/missing.pdf"] (some 5) =
      [("cli-open-files", { files := ["/valid.pdf"], page := some 5 })] ∧
    (∀ (fs : FS) (files : List String) (page : Option Nat),
      survivors fs files = [] → resolveLaunch fs files page = []) := by
  constructor
  · decide
  · intro fs files page h
    unfold resolveLaunch
    simp [h]

/-- C5 witness: the zero-survivor branch evaluated on the empty
filesystem. -/
theorem c5_witness : resolveLaunch fsEmpty ["/ghost.pdf"] (some 2) = [] := by
  exact c5_resolver_drops_invalid_paths.2 fsEmpty ["/ghost.pdf"] (some 2) rfl

/-- C6: for any path that canonicalizes to an existing file, the launch
pipeline emits it whatever its extension (no allow-list there), while the
file-association pipeline emits a single-file, page-free event exactly
when the canonical path's extension is allow-listed and drops the payload
otherwise. -/
theorem c6_asymmetric_extension_filtering (fs : FS) (p c : String) (page : Option Nat)
    (hc : fs.canonicalize p = some c) (he : fs.pathExists c = true) :
    resolveLaunch fs [p] page = [("cli-open-files", { files := [c], page := page })] ∧
    fileAssoc fs p =
      (if extAllowed c then [("cli-open-files", { files := [c], page := none })] else []) := by
  constructor
  · simp [resolveLaunch, survivors, hc, he]
  · simp [fileAssoc, hc, he]

/-- C6 witness: `/notes.txt` (extension outside the allow-list) is
emitted by the launch pipeline but dropped by the file-association
pipeline. -/
theorem c6_witness :
    resolveLaunch fsNotesTxt ["/notes.txt"] none =
      [("cli-open-files", { files := ["/notes.txt"], page := none })] ∧
    fileAssoc fsNotesTxt "/notes.txt" = [] := by
  have h := c6_asymmetric_extension_filtering fsNotesTxt "/notes.txt" "/notes.txt" none
    (by decide) (by decide)
  exact ⟨h.1, h.2.trans (by decide)⟩

/-- C7: `read_pdf_file` returns the not-found error on every non-existent
path with an allow-listed extension, and it is atomic: the result type
admits either bytes or one error and never both, and bytes are returned
only when the path exists, the extension is allow-listed, and the read
itself succeeded with exactly those bytes. -/
theorem c7_not_found_and_atomicity :
    (∀ (fs : FS) (p : String), fs.pathExists p = false → extAllowed p = true →
      read_pdf_file fs p = Except.error ("File not found: " ++ p)) ∧
    (∀ (fs : FS) (p : String) (bytes : List Nat),
      read_pdf_file fs p = Except.ok bytes →
      fs.pathExists p = true ∧ extAllowed p = true ∧ fs.readFile p = Except.ok bytes) := by
  constructor
  · intro fs p h _
    unfold read_pdf_file
    simp [h]
  · intro fs p bytes h
    unfold read_pdf_file at h
    by_cases he : fs.pathExists p
    · by_cases hx : extAllowed p
      · cases hr : fs.readFile p <;> simp [he, hx, hr] at h
        exact ⟨he, hx, congrArg Except.ok h⟩
      · simp [he, hx] at h
    · simp [he] at h

/-- C7 witness: the not-found branch at `/ghost.pdf` on the empty
filesystem, and the atomicity conclusion at the successful read of
`/valid.pdf`. -/
theorem c7_witness :
    read_pdf_file fsEmpty "/ghost.pdf" = Except.error ("File not found: /ghost.pdf") ∧
    (fsValidPdf.pathExists "/valid.pdf" = true ∧ extAllowed "/valid.pdf" = true ∧
      fsValidPdf.readFile "/valid.pdf" = Except.ok [37, 80, 68, 70]) := by
  exact ⟨c7_not_found_and_atomicity.1 fsEmpty "/ghost.pdf" rfl (by decide),
    c7_not_found_and_atomicity.2 fsValidPdf "/valid.pdf" [37, 80, 68, 70] rfl⟩

/-- C8 counterexample: the page option is a `u32`, so `--page 0` is
accepted; launching with `/valid.pdf` and page 0 emits a `cli-open-files`
event whose present page field is 0, which is not a positive integer —
the claimed `page >= 1` invariant fails. -/
theorem c8_counterexample :
    resolveLaunch fsValidPdf ["/valid.pdf"] (some 0) =
      [("cli-open-files", { files := ["/valid.pdf"], page := some 0 })] ∧
    ¬ (1 ≤ (0 : Nat)) := by
  exact ⟨by decide, by decide⟩

/-- C8 (amended): the page field of every emitted `cli-open-files` event
is the parsed `u32` option forwarded verbatim — a non-negative integer,
with no positivity check, so page 0 is possible — and file-association
events always carry no page. -/
theorem c8_page_forwarded_verbatim :
    (∀ (fs : FS) (files : List String) (page : Option Nat) (e : String × CliPayload),
      e ∈ resolveLaunch fs files page → e.2.page = page) ∧
    (∀ (fs : FS) (p : String) (e : String × CliPayload),
      e ∈ fileAssoc fs p → e.2.page = none) := by
  constructor
  · intro fs files page e h
    unfold resolveLaunch at h
    split at h
    · simp at h
    · split at h
      · simp at h
      · simp at h
        subst h
        rfl
  · intro fs p e h
    unfold fileAssoc at h
    split at h
    · split at h
      · split at h
        · simp at h
          subst h
          rfl
        · simp at h
      · simp at h
    · simp at h

/-- C8 witness: the amended statement at the event emitted for
`/valid.pdf` with page 5, and at the event emitted by file association
for `/valid.pdf`. -/
theorem c8_witness :
    ("cli-open-files", ({ files := ["/valid.pdf"], page := some 5 } : CliPayload)).2.page =
      some 5 ∧
    ("cli-open-files", ({ files := ["/valid.pdf"], page := none } : CliPayload)).2.page =
      none := by
  exact ⟨c8_page_forwarded_verbatim.1 fsValidPdf ["/valid.pdf"] (some 5)
      ("cli-open-files", { files := ["/valid.pdf"], page := some 5 }) (by decide),
    c8_page_forwarded_verbatim.2 fsValidPdf "/valid.pdf"
      ("cli-open-files", { files := ["/valid.pdf"], page := none }) (by decide)⟩

/-- C9: dispatching any identifier outside the built closed set performs
no effect in any window state (a no-op, and the dispatcher is total so
nothing is raised), and each of the seven event-emitting identifiers
emits its correspondingly named event to the `"main"` window exactly when
that window exists, and performs nothing when it does not. -/
theorem c9_unknown_noop_and_main_only_emissions :
    (∀ (st : WinState) (id : String), id ∉ nodesIds (create_menu Platform.other) →
      handle_menu_event st id = []) ∧
    (∀ st : WinState,
      handle_menu_event st "open" =
        (if st.hasMain then [Effect.emitTo "main" "menu-open"] else []) ∧
      handle_menu_event st "print" =
        (if st.hasMain then [Effect.emitTo "main" "menu-print"] else []) ∧
      handle_menu_event st "zoom_in" =
        (if st.hasMain then [Effect.emitTo "main" "menu-zoom-in"] else []) ∧
      handle_menu_event st "zoom_out" =
        (if st.hasMain then [Effect.emitTo "main" "menu-zoom-out"] else []) ∧
      handle_menu_event st "reset_zoom" =
        (if st.hasMain then [Effect.emitTo "main" "menu-reset-zoom"] else []) ∧
      handle_menu_event st "toggle_fullscreen" =
        (if st.hasMain then [Effect.emitTo "main" "menu-toggle-fullscreen"] else []) ∧
      handle_menu_event st "close_tab" =
        (if st.hasMain then [Effect.emitTo "main" "menu-close-tab"] else [])) := by
  constructor
  · intro st id h
    unfold handle_menu_event
    split <;> simp_all [create_menu, nodesIds, nodeIds]
  · intro st
    exact ⟨rfl, rfl, rfl, rfl, rfl, rfl, rfl⟩

/-- C9 witness: the unknown identifier is a no-op under the probe state,
and the emission shape for `"open"` under the probe state. -/
theorem c9_witness :
    handle_menu_event probeState "unknown-id" = [] ∧
    handle_menu_event probeState "open" =
      (if probeState.hasMain then [Effect.emitTo "main" "menu-open"] else []) := by
  exact ⟨c9_unknown_noop_and_main_only_emissions.1 probeState "unknown-id" (by decide),
    (c9_unknown_noop_and_main_only_emissions.2 probeState).1⟩

/-- C10: `get_file_name` yields the last path segment and the literal
`"Unknown"` when no segment is extractable; `get_file_directory` yields
the parent directory and the empty string when there is none; including
the three specified evaluations. -/
theorem c10_file_name_and_directory :
    get_file_name "/a/b/doc.pdf" = "doc.pdf" ∧
    get_file_directory "/a/b/doc.pdf" = "/a/b" ∧
    get_file_directory "doc.pdf" = "" ∧
    get_file_name "" = "Unknown" ∧
    get_file_name "/" = "Unknown" ∧
    get_file_name ".." = "Unknown" ∧
    get_file_directory "/" = "" ∧
    get_file_directory "" = "" := by
  decide

end Monight
